import Mathlib

set_option maxRecDepth 8000

/-!
# Verification of the `zfs_snapshot` retention engine

A shallow embedding of the core of `ngie-eign/zfs_snapshot`
(`src/zfs_snapshot/zfs_snapshot.py` and `src/zfs_snapshot/__main__.py`).

External boundaries are modelled explicitly:
* calls to the `zfs` command line tool (`list`, `snapshot`, `destroy`) are
  passed in as function parameters giving the text the tool would return, and
  the effects of `create_snapshot` / `destroy_snapshot` are recorded as an
  event trace;
* the Python library functions `time.strptime` and `time.strftime` are passed
  in as parameters (`strptime` returning `Option StructTime`, mirroring the
  `ValueError` raised on a parse failure); a concrete executable model
  `strptimeModel` of CPython's `time.strptime` restricted to the `%Y`, `%m`,
  `%d` and `%H` directives is provided for concrete evaluation;
* `datetime.datetime` / `datetime.timedelta` arithmetic is modelled on `Int`
  as a count of seconds (all durations used by the program are whole numbers
  of seconds).
-/

namespace ZfsSnapshot

/-- Model of Python's `time.struct_time`: a 9-tuple
`(tm_year, tm_mon, tm_mday, tm_hour, tm_min, tm_sec, tm_wday, tm_yday, tm_isdst)`. -/
structure StructTime where
  tm_year : Int
  tm_mon : Int
  tm_mday : Int
  tm_hour : Int
  tm_min : Int
  tm_sec : Int
  tm_wday : Int
  tm_yday : Int
  tm_isdst : Int
deriving DecidableEq, Repr, Inhabited

/-- The fields of a `struct_time` in the order Python compares them. -/
def StructTime.toList (t : StructTime) : List Int :=
  [t.tm_year, t.tm_mon, t.tm_mday, t.tm_hour, t.tm_min, t.tm_sec,
   t.tm_wday, t.tm_yday, t.tm_isdst]

/-- Python tuple comparison (lexicographic; a strict prefix is smaller). -/
def intListLt : List Int → List Int → Bool
  | [], [] => false
  | [], _ :: _ => true
  | _ :: _, [] => false
  | a :: as, b :: bs =>
    if a < b then true
    else if b < a then false
    else intListLt as bs

/-- Python's `<` on `time.struct_time` values (tuple comparison). -/
def structTimeLt (a b : StructTime) : Bool :=
  intListLt a.toList b.toList

/-! ## `zfs_snapshot.py` -/

def SNAPSHOT_SEPARATOR : String := "@"

/-- `snapshot_name(vdev, date_format)`. -/
def snapshot_name (vdev : String) (date_format : String) : String :=
  vdev ++ SNAPSHOT_SEPARATOR ++ date_format

/-- `is_destroyable_snapshot(vdev, cutoff, date_format, snapshot)`.

The Python code builds the template `snapshot_name(vdev, date_format)`, tries
`time.strptime(snapshot, template)`, returns `False` on `ValueError` and
otherwise returns `snapshot_time < time.struct_time(cutoff)`.  The library
call is the `strptime` parameter (`none` models the `ValueError`). -/
def is_destroyable_snapshot (strptime : String → String → Option StructTime)
    (vdev : String) (cutoff : StructTime) (date_format : String)
    (snapshot : String) : Bool :=
  match strptime snapshot (snapshot_name vdev date_format) with
  | none => false
  | some snapshot_time => structTimeLt snapshot_time cutoff

/-- Externally observable effects of a run: `zfs destroy <snapshot>` and
`zfs snapshot <name>` invocations, in order. -/
inductive Event where
  | destroy (snapshot : String)
  | create (snapshot : String)
deriving DecidableEq, Repr

def Event.isCreate : Event → Bool
  | .create _ => true
  | .destroy _ => false

def Event.isDestroy : Event → Bool
  | .create _ => false
  | .destroy _ => true

/-- Names carried by the destroy events of a trace, in trace order. -/
def destroyedNames (tr : List Event) : List String :=
  tr.filterMap fun e =>
    match e with
    | .destroy s => some s
    | .create _ => none

/-- Lexicographic `≤` on code-point sequences, as Python compares strings. -/
def charListLe : List Char → List Char → Bool
  | [], _ => true
  | _ :: _, [] => false
  | a :: as, b :: bs =>
    if a < b then true
    else if b < a then false
    else charListLe as bs

/-- Python's `a >= b` on strings (code-point lexicographic). -/
def stringGeB (a b : String) : Bool := charListLe b.data a.data

/-- Insert into a descending list, keeping it descending. -/
def insertDesc (a : String) : List String → List String
  | [] => [a]
  | b :: l => if stringGeB a b then a :: b :: l else b :: insertDesc a l

/-- Python's `sorted(l, reverse=True)` on strings: descending lexicographic. -/
def sortedReverse : List String → List String
  | [] => []
  | a :: l => insertDesc a (sortedReverse l)

/-- `execute_snapshot_policy(vdev, now, cutoff, date_format, recursive)`,
returning the trace of destroy/create calls it issues.

`list_snapshots vdev recursive` stands for the snapshot listing obtained from
the external `zfs list -H -t snapshot [-r] -o name <vdev>` call, and
`strftime fmt t` for Python's `time.strftime(fmt, t)`.  The Python code
filters the listing through `is_destroyable_snapshot`, destroys the expired
snapshots in `sorted(expired_snapshots, reverse=True)` order, then
unconditionally creates `snapshot_name(vdev, time.strftime(date_format, now))`. -/
def execute_snapshot_policy (strptime : String → String → Option StructTime)
    (list_snapshots : String → Bool → List String)
    (strftime : String → StructTime → String)
    (vdev : String) (now : StructTime) (cutoff : StructTime)
    (date_format : String) (recursive : Bool) : List Event :=
  let snapshots := list_snapshots vdev recursive
  let expired_snapshots := snapshots.filter
    (fun snapshot => is_destroyable_snapshot strptime vdev cutoff date_format snapshot)
  (sortedReverse expired_snapshots).map Event.destroy
    ++ [Event.create (snapshot_name vdev (strftime date_format now))]

/-! ## A concrete model of CPython `time.strptime`

Restricted to the directives this program's formats use (`%Y`, `%m`, `%d`,
`%H`) plus literal characters, following CPython's `_strptime.py` regular
expressions: `%Y` matches exactly four digits, `%m` matches
`1[0-2]|0[1-9]|[1-9]`, `%d` matches `3[01]|[12]\d|0[1-9]|[1-9]`, `%H`
matches `2[0-3]|[0-1]\d|\d`.  Unset fields keep CPython's defaults
(year 1900, month 1, day 1, hour/minute/second 0, `tm_isdst = -1`), and
`tm_wday`/`tm_yday` are computed from the parsed date as CPython does. -/

/-- Numeric value of a decimal digit character. -/
def digitVal (c : Char) : Nat := c.toNat - 48

/-- `%Y`: exactly four decimal digits. -/
def parseY : List Char → Option (Nat × List Char)
  | d1 :: d2 :: d3 :: d4 :: rest =>
    if d1.isDigit && d2.isDigit && d3.isDigit && d4.isDigit then
      some (digitVal d1 * 1000 + digitVal d2 * 100 + digitVal d3 * 10 + digitVal d4, rest)
    else none
  | _ => none

/-- `%m`: `1[0-2]|0[1-9]|[1-9]`. -/
def parseM : List Char → Option (Nat × List Char)
  | c1 :: c2 :: rest =>
    if c1 = '1' && ('0' ≤ c2 && c2 ≤ '2') then some (10 + digitVal c2, rest)
    else if c1 = '0' && ('1' ≤ c2 && c2 ≤ '9') then some (digitVal c2, rest)
    else if '1' ≤ c1 && c1 ≤ '9' then some (digitVal c1, c2 :: rest)
    else none
  | [c1] => if '1' ≤ c1 && c1 ≤ '9' then some (digitVal c1, []) else none
  | [] => none

/-- `%d`: `3[01]|[12]\d|0[1-9]|[1-9]`. -/
def parseD : List Char → Option (Nat × List Char)
  | c1 :: c2 :: rest =>
    if c1 = '3' && ('0' ≤ c2 && c2 ≤ '1') then some (30 + digitVal c2, rest)
    else if ('1' ≤ c1 && c1 ≤ '2') && c2.isDigit then some (digitVal c1 * 10 + digitVal c2, rest)
    else if c1 = '0' && ('1' ≤ c2 && c2 ≤ '9') then some (digitVal c2, rest)
    else if '1' ≤ c1 && c1 ≤ '9' then some (digitVal c1, c2 :: rest)
    else none
  | [c1] => if '1' ≤ c1 && c1 ≤ '9' then some (digitVal c1, []) else none
  | [] => none

/-- `%H`: `2[0-3]|[0-1]\d|\d`. -/
def parseH : List Char → Option (Nat × List Char)
  | c1 :: c2 :: rest =>
    if c1 = '2' && ('0' ≤ c2 && c2 ≤ '3') then some (20 + digitVal c2, rest)
    else if ('0' ≤ c1 && c1 ≤ '1') && c2.isDigit then some (digitVal c1 * 10 + digitVal c2, rest)
    else if c1.isDigit then some (digitVal c1, c2 :: rest)
    else none
  | [c1] => if c1.isDigit then some (digitVal c1, []) else none
  | [] => none

/-- Fields of the date being assembled during parsing. -/
structure ParsedDate where
  y : Nat
  mon : Nat
  d : Nat
  h : Nat
deriving DecidableEq, Repr

/-- Dispatch on a `%` directive character. -/
def parseDirective (q : Char) (s : List Char) :
    Option ((ParsedDate → ParsedDate) × List Char) :=
  if q = 'Y' then (parseY s).map (fun p => (fun acc => { acc with y := p.1 }, p.2))
  else if q = 'm' then (parseM s).map (fun p => (fun acc => { acc with mon := p.1 }, p.2))
  else if q = 'd' then (parseD s).map (fun p => (fun acc => { acc with d := p.1 }, p.2))
  else if q = 'H' then (parseH s).map (fun p => (fun acc => { acc with h := p.1 }, p.2))
  else none

/-- Walk the format and the candidate simultaneously; the whole candidate
must be consumed (CPython raises `ValueError` on unconverted data). -/
def runStrptime : List Char → List Char → ParsedDate → Option ParsedDate
  | [], s, acc => if s = [] then some acc else none
  | '%' :: q :: fmtRest, s, acc =>
    match parseDirective q s with
    | none => none
    | some (upd, rest) => runStrptime fmtRest rest (upd acc)
  | ['%'], _, _ => none
  | c :: fmtRest, s, acc =>
    match s with
    | [] => none
    | c' :: sRest => if c' = c then runStrptime fmtRest sRest acc else none

/-- Gregorian leap year. -/
def isLeap (y : Nat) : Bool := y % 4 = 0 && (y % 100 != 0 || y % 400 = 0)

/-- Days in the months strictly before month `m` (1-based). -/
def daysBeforeMonth (leap : Bool) (m : Nat) : Nat :=
  let lengths : List Nat :=
    [31, if leap then 29 else 28, 31, 30, 31, 30, 31, 31, 30, 31, 30, 31]
  ((lengths.take (m - 1)).foldl (· + ·) 0)

/-- `tm_yday`: 1-based ordinal day of the year. -/
def ydayOf (y m d : Nat) : Nat := daysBeforeMonth (isLeap y) m + d

/-- Days elapsed since 1900-01-01. -/
def daysSince1900 (y m d : Nat) : Nat :=
  ((List.range (y - 1900)).foldl (fun a i => a + (if isLeap (1900 + i) then 366 else 365)) 0)
    + ydayOf y m d - 1

/-- `tm_wday` (Monday = 0); 1900-01-01 was a Monday. -/
def wdayOf (y m d : Nat) : Nat := daysSince1900 y m d % 7

/-- The concrete `time.strptime(s, fmt)` model. -/
def strptimeModel (s : String) (fmt : String) : Option StructTime :=
  (runStrptime fmt.toList s.toList ⟨1900, 1, 1, 0⟩).map fun p =>
    { tm_year := p.y, tm_mon := p.mon, tm_mday := p.d, tm_hour := p.h,
      tm_min := 0, tm_sec := 0,
      tm_wday := wdayOf p.y p.mon p.d, tm_yday := ydayOf p.y p.mon p.d,
      tm_isdst := -1 }

/-- A concrete cutoff used for evaluating the classifier at specific inputs:
the `struct_time` for 2020-06-01 00:00:00 (a Monday, ordinal day 153). -/
def cutoffExample : StructTime := ⟨2020, 6, 1, 0, 0, 0, 0, 153, -1⟩

/-! ## `__main__.py` -/

/-- The `SnapshotPolicy` dataclass.  The `lifetime` field is the
`datetime.timedelta` measured in seconds. -/
structure SnapshotPolicy where
  name : String
  lifetime : Int
  date_format_qualifier : String
deriving DecidableEq, Repr, Inhabited

def DATE_ELEMENT_SEPARATOR : String := "."

def WEEKS_IN_A_MONTH : Int := 4

def WEEKS_IN_A_YEAR : Int := 52

/-- `datetime.timedelta(hours=h)` in seconds. -/
def timedelta_hours (h : Int) : Int := h * 3600

/-- `datetime.timedelta(days=d)` in seconds. -/
def timedelta_days (d : Int) : Int := d * 24 * 3600

/-- `datetime.timedelta(weeks=w)` in seconds. -/
def timedelta_weeks (w : Int) : Int := w * 7 * 24 * 3600

/-- `datetime.timedelta(**{unit: n})`: keyword lookup of the duration unit.
An unknown keyword raises `TypeError` in Python, modelled by `none`.
(Only the units the program ever passes are listed.) -/
def timedelta_of_unit (unit : String) (n : Int) : Option Int :=
  if unit = "weeks" then some (timedelta_weeks n)
  else if unit = "days" then some (timedelta_days n)
  else if unit = "hours" then some (timedelta_hours n)
  else none

/-- `SNAPSHOT_CATEGORIES`: the ordered policy table. -/
def SNAPSHOT_CATEGORIES : List SnapshotPolicy :=
  [⟨"years", timedelta_weeks (2 * WEEKS_IN_A_YEAR), "Y"⟩,
   ⟨"months", timedelta_weeks (1 * WEEKS_IN_A_YEAR), "m"⟩,
   ⟨"days", timedelta_weeks (1 * WEEKS_IN_A_MONTH), "d"⟩,
   ⟨"hours", timedelta_days 1, "H"⟩]

/-- Python truthiness of the `lifetime_override` argument (`None` or `int`):
`None` and `0` are falsy. -/
def truthy : Option Nat → Bool
  | none => false
  | some n => n != 0

/-- `compute_cutoff(policy, lifetime_override)`.

The module-level `NOW` constant is threaded in as the `now` parameter
(seconds).  The Python code rewrites a `"years"` override into
`override * WEEKS_IN_A_YEAR` weeks and a `"months"` override into
`override * WEEKS_IN_A_MONTH` weeks, builds
`datetime.timedelta(**{policy_name: lifetime_override})`, and returns
`NOW - lifetime`; with a falsy override it uses `policy.lifetime`. -/
def compute_cutoff (now : Int) (policy : SnapshotPolicy)
    (lifetime_override : Option Nat) : Option Int :=
  if truthy lifetime_override then
    let n : Int := Int.ofNat (lifetime_override.getD 0)
    let rewritten :=
      if policy.name = "years" then ("weeks", n * WEEKS_IN_A_YEAR)
      else if policy.name = "months" then ("weeks", n * WEEKS_IN_A_MONTH)
      else (policy.name, n)
    (timedelta_of_unit rewritten.1 rewritten.2).map (fun lifetime => now - lifetime)
  else
    some (now - policy.lifetime)

/-- The composite date format built in `main`:
`DATE_ELEMENT_SEPARATOR.join(["%" + SNAPSHOT_CATEGORIES[i].date_format_qualifier
for i in range(args.snapshot_period + 1)])`. -/
def date_format_for (snapshot_period : Nat) : String :=
  String.intercalate DATE_ELEMENT_SEPARATOR
    ((List.range (snapshot_period + 1)).map
      (fun i => "%" ++ (SNAPSHOT_CATEGORIES.getD i default).date_format_qualifier))

/-- The snapshot name format built in `main`:
`"%s-%s%s" % (args.snapshot_prefix, date_format, snapshot_suffix)` where
`snapshot_suffix` is the selected category's bare (unescaped) qualifier. -/
def snapshot_name_format (prefixStr : String) (snapshot_period : Nat) : String :=
  prefixStr ++ "-" ++ date_format_for snapshot_period
    ++ (SNAPSHOT_CATEGORIES.getD snapshot_period default).date_format_qualifier

/-- Errors surfaced by the modelled run. -/
inductive ZfsError where
  | vdevNotFound
  | typeError
deriving DecidableEq, Repr

/-- `list_vdevs()`: splits the output of
`zfs list -H -t filesystem,volume -o name` (passed in as the already-split
`zfs_list_output`) and raises `VdevNotFoundError` when it is empty. -/
def list_vdevs (zfs_list_output : List String) : Except ZfsError (List String) :=
  if zfs_list_output = [] then .error .vdevNotFound else .ok zfs_list_output

/-- `compute_vdevs(vdevs, recursive)`.

`zfs_list_r vdev` stands for the split output of
`zfs list -H -o name -r <vdev>`.  The Python code extends a fresh list with
each per-vdev recursive listing when `recursive and vdevs`, and otherwise
returns `vdevs or list_vdevs()`. -/
def compute_vdevs (zfs_list_r : String → List String)
    (zfs_list_output : List String)
    (vdevs : List String) (recursive : Bool) : Except ZfsError (List String) :=
  if recursive && !(vdevs = [] : Bool) then
    .ok (vdevs.flatMap zfs_list_r)
  else if !(vdevs = [] : Bool) then
    .ok vdevs
  else
    list_vdevs zfs_list_output

/-- `main(args)` after argument parsing, returning the trace of
destroy/create calls of the whole run.

Mirrors the body of `main`: build the composite `date_format` and the
`snapshot_name_format`, compute the cutoff with `compute_cutoff`, resolve
the vdev set with `compute_vdevs`, then run `execute_snapshot_policy` for
each vdev in `sorted(vdevs, reverse=True)` order, passing
`NOW.timetuple()` and `snapshot_cutoff.timetuple()` (the `timetuple`
parameter models that `datetime` → `struct_time` conversion). -/
def main_trace (strptime : String → String → Option StructTime)
    (list_snapshots : String → Bool → List String)
    (strftime : String → StructTime → String)
    (zfs_list_r : String → List String)
    (zfs_list_output : List String)
    (timetuple : Int → StructTime) (now : Int)
    (lifetime : Option Nat) (snapshot_period : Nat) (prefixStr : String)
    (recursive : Bool) (vdevs : List String) : Except ZfsError (List Event) :=
  let snapshot_category := SNAPSHOT_CATEGORIES.getD snapshot_period default
  let fmt := snapshot_name_format prefixStr snapshot_period
  match compute_cutoff now snapshot_category lifetime with
  | none => .error .typeError
  | some snapshot_cutoff =>
    match compute_vdevs zfs_list_r zfs_list_output vdevs recursive with
    | .error e => .error e
    | .ok target_vdevs =>
      .ok ((sortedReverse target_vdevs).flatMap (fun vdev =>
        execute_snapshot_policy strptime list_snapshots strftime vdev
          (timetuple now) (timetuple snapshot_cutoff) fmt recursive))

/-! ## Helper lemmas -/

theorem charListLe_iff : ∀ as bs : List Char, charListLe as bs = true ↔ ¬ bs < as
  | [], bs => iff_of_true rfl (fun h => by cases h)
  | a :: as, [] => by
    refine iff_of_false (by simp [charListLe]) (not_not_intro List.Lex.nil)
  | a :: as, b :: bs => by
    rcases lt_trichotomy a b with hab | rfl | hba
    · refine iff_of_true (by simp [charListLe, hab]) ?_
      intro h
      cases h with
      | cons h' => exact lt_irrefl _ hab
      | rel h' => exact lt_asymm hab h'
    · have he : charListLe (a :: as) (a :: bs) = charListLe as bs := by
        simp [charListLe]
      rw [he, charListLe_iff as bs]
      constructor
      · intro h hlt
        cases hlt with
        | cons h' => exact h h'
        | rel h' => exact lt_irrefl _ h'
      · intro h hlt
        exact h (List.Lex.cons hlt)
    · refine iff_of_false ?_ (not_not_intro (List.Lex.rel hba))
      have hnab : ¬ a < b := lt_asymm hba
      simp [charListLe, hnab, hba]

theorem stringGeB_iff (a b : String) : stringGeB a b = true ↔ b ≤ a := by
  rw [String.le_iff_toList_le, ← not_lt]
  exact charListLe_iff b.data a.data

theorem perm_insertDesc (a : String) :
    ∀ l : List String, List.Perm (insertDesc a l) (a :: l)
  | [] => List.Perm.refl _
  | b :: l => by
    by_cases hge : stringGeB a b = true
    · simp [insertDesc, hge]
    · simp only [insertDesc, hge, if_false, Bool.false_eq_true]
      exact ((perm_insertDesc a l).cons b).trans (List.Perm.swap a b l)

theorem sorted_insertDesc (a : String) : ∀ {l : List String},
    List.Sorted (· ≥ ·) l → List.Sorted (· ≥ ·) (insertDesc a l)
  | [], _ => by simp [insertDesc]
  | b :: l, h => by
    rw [List.sorted_cons] at h
    obtain ⟨hb, hl⟩ := h
    by_cases hge : stringGeB a b = true
    · simp only [insertDesc, hge, if_true]
      rw [List.sorted_cons]
      refine ⟨?_, List.sorted_cons.mpr ⟨hb, hl⟩⟩
      intro x hx
      rcases List.mem_cons.mp hx with rfl | hx
      · exact (stringGeB_iff a x).mp hge
      · exact le_trans (hb x hx) ((stringGeB_iff a b).mp hge)
    · simp only [insertDesc, hge, if_false, Bool.false_eq_true]
      rw [List.sorted_cons]
      refine ⟨?_, sorted_insertDesc a hl⟩
      intro x hx
      rcases List.mem_cons.mp ((perm_insertDesc a l).mem_iff.mp hx) with rfl | hx
      · have hlt : ¬ b ≤ x := fun hc => hge ((stringGeB_iff x b).mpr hc)
        exact le_of_lt (lt_of_not_le hlt)
      · exact hb x hx

theorem sortedReverse_perm : ∀ l : List String, List.Perm (sortedReverse l) l
  | [] => List.Perm.refl _
  | a :: l => (perm_insertDesc a (sortedReverse l)).trans ((sortedReverse_perm l).cons a)

theorem sortedReverse_sorted : ∀ l : List String, List.Sorted (· ≥ ·) (sortedReverse l)
  | [] => List.sorted_nil
  | a :: l => sorted_insertDesc a (sortedReverse_sorted l)

theorem intListLt_irrefl : ∀ l : List Int, intListLt l l = false
  | [] => rfl
  | a :: l => by simp [intListLt, intListLt_irrefl l]

theorem structTimeLt_irrefl (t : StructTime) : structTimeLt t t = false :=
  intListLt_irrefl t.toList

theorem structTimeLt_succ_sec (t : StructTime) :
    structTimeLt t { t with tm_sec := t.tm_sec + 1 } = true := by
  simp [structTimeLt, StructTime.toList, intListLt, Int.lt_add_one_iff]

theorem filter_isCreate_map_destroy (l : List String) :
    (l.map Event.destroy).filter Event.isCreate = [] := by
  induction l with
  | nil => rfl
  | cons a l ih => simp [List.filter, Event.isCreate, ih]

theorem destroyedNames_map_destroy (l : List String) :
    destroyedNames (l.map Event.destroy) = l := by
  induction l with
  | nil => rfl
  | cons a l ih => simp [destroyedNames, List.filterMap] at ih ⊢; exact ih

theorem destroyedNames_append (l₁ l₂ : List Event) :
    destroyedNames (l₁ ++ l₂) = destroyedNames l₁ ++ destroyedNames l₂ := by
  simp [destroyedNames]

theorem destroyedNames_execute
    (strptime : String → String → Option StructTime)
    (list_snapshots : String → Bool → List String)
    (strftime : String → StructTime → String)
    (vdev : String) (now cutoff : StructTime)
    (date_format : String) (recursive : Bool) :
    destroyedNames (execute_snapshot_policy strptime list_snapshots strftime vdev now
        cutoff date_format recursive)
      = sortedReverse ((list_snapshots vdev recursive).filter
          (fun snapshot => is_destroyable_snapshot strptime vdev cutoff date_format snapshot)) := by
  unfold execute_snapshot_policy
  rw [destroyedNames_append, destroyedNames_map_destroy]
  simp [destroyedNames]

/-! ## Claims -/

/-- C1: for every volume name, cutoff, composite date format and candidate
snapshot-name string, if the candidate does not parse against the expected
template (`snapshot_name vdev date_format`), `is_destroyable_snapshot`
classifies it as not expired (returns `false`) and returns normally,
regardless of the cutoff value; the `ValueError` of the parse (modelled by
the `none` result of `strptime`) never escapes the classifier, which is a
total function. -/
theorem unparseable_snapshot_not_expired
    (strptime : String → String → Option StructTime)
    (vdev : String) (cutoff : StructTime) (date_format snapshot : String)
    (h : strptime snapshot (snapshot_name vdev date_format) = none) :
    is_destroyable_snapshot strptime vdev cutoff date_format snapshot = false := by
  unfold is_destroyable_snapshot
  rw [h]

/-- C1 witness: the spec's example `v@before_reboot` does not parse against
the template `v@%Y.%m.%d` and is classified not expired. -/
theorem unparseable_snapshot_not_expired_witness :
    strptimeModel "v@before_reboot" (snapshot_name "v" "%Y.%m.%d") = none ∧
    is_destroyable_snapshot strptimeModel "v" cutoffExample "%Y.%m.%d" "v@before_reboot"
      = false :=
  ⟨by decide, unparseable_snapshot_not_expired strptimeModel "v" cutoffExample "%Y.%m.%d"
      "v@before_reboot" (by decide)⟩

/-- C2: for every snapshot name that parses successfully against the template
(to `t`), `is_destroyable_snapshot` returns expired exactly when the parsed
instant is strictly earlier than the cutoff (`structTimeLt t cutoff`); in
particular with the cutoff equal to `t` it returns not expired, and with the
cutoff one second after `t` (the parsed time one unit earlier than the
cutoff) it returns expired. -/
theorem parsed_snapshot_expired_iff_before_cutoff
    (strptime : String → String → Option StructTime)
    (vdev : String) (date_format snapshot : String) (t : StructTime)
    (h : strptime snapshot (snapshot_name vdev date_format) = some t) :
    (∀ cutoff : StructTime,
      is_destroyable_snapshot strptime vdev cutoff date_format snapshot
        = structTimeLt t cutoff)
    ∧ is_destroyable_snapshot strptime vdev t date_format snapshot = false
    ∧ is_destroyable_snapshot strptime vdev { t with tm_sec := t.tm_sec + 1 }
        date_format snapshot = true := by
  have hmain : ∀ cutoff : StructTime,
      is_destroyable_snapshot strptime vdev cutoff date_format snapshot
        = structTimeLt t cutoff := by
    intro cutoff
    unfold is_destroyable_snapshot
    rw [h]
  exact ⟨hmain, by rw [hmain]; exact structTimeLt_irrefl t,
    by rw [hmain]; exact structTimeLt_succ_sec t⟩

/-- C2 witness: `v@2020.06.01` parses against `v@%Y.%m.%d`; with the cutoff
equal to the parsed instant it is kept, one second later it is expired. -/
theorem parsed_snapshot_expired_iff_before_cutoff_witness :
    strptimeModel "v@2020.06.01" (snapshot_name "v" "%Y.%m.%d")
      = some ⟨2020, 6, 1, 0, 0, 0, 0, 153, -1⟩
    ∧ is_destroyable_snapshot strptimeModel "v" ⟨2020, 6, 1, 0, 0, 0, 0, 153, -1⟩
        "%Y.%m.%d" "v@2020.06.01" = false
    ∧ is_destroyable_snapshot strptimeModel "v" ⟨2020, 6, 1, 0, 0, 1, 0, 153, -1⟩
        "%Y.%m.%d" "v@2020.06.01" = true := by
  have h := parsed_snapshot_expired_iff_before_cutoff strptimeModel "v" "%Y.%m.%d"
    "v@2020.06.01" ⟨2020, 6, 1, 0, 0, 0, 0, 153, -1⟩ (by decide)
  exact ⟨by decide, h.2.1, by rw [h.1]; decide⟩

/-- C3: for every strictly positive override `n`, `compute_cutoff` returns
`now - n*52 weeks` for the "years" policy, `now - n*4 weeks` for "months",
and `now - n days` / `now - n hours` for "days" / "hours". -/
theorem compute_cutoff_override_units (now : Int) (n : Nat) (h : 0 < n) :
    compute_cutoff now (SNAPSHOT_CATEGORIES.getD 0 default) (some n)
        = some (now - timedelta_weeks ((n : Int) * 52))
    ∧ compute_cutoff now (SNAPSHOT_CATEGORIES.getD 1 default) (some n)
        = some (now - timedelta_weeks ((n : Int) * 4))
    ∧ compute_cutoff now (SNAPSHOT_CATEGORIES.getD 2 default) (some n)
        = some (now - timedelta_days (n : Int))
    ∧ compute_cutoff now (SNAPSHOT_CATEGORIES.getD 3 default) (some n)
        = some (now - timedelta_hours (n : Int)) := by
  have hn : n ≠ 0 := Nat.pos_iff_ne_zero.mp h
  refine ⟨?_, ?_, ?_, ?_⟩ <;>
    simp [compute_cutoff, SNAPSHOT_CATEGORIES, truthy, timedelta_of_unit, hn,
      WEEKS_IN_A_YEAR, WEEKS_IN_A_MONTH]

/-- C3 witness: the override theorem evaluated at `now = 0`, `n = 3`. -/
theorem compute_cutoff_override_units_witness :
    (0 : Nat) < 3
    ∧ (compute_cutoff 0 (SNAPSHOT_CATEGORIES.getD 0 default) (some 3)
        = some (0 - timedelta_weeks ((3 : Int) * 52))
      ∧ compute_cutoff 0 (SNAPSHOT_CATEGORIES.getD 1 default) (some 3)
        = some (0 - timedelta_weeks ((3 : Int) * 4))
      ∧ compute_cutoff 0 (SNAPSHOT_CATEGORIES.getD 2 default) (some 3)
        = some (0 - timedelta_days (3 : Int))
      ∧ compute_cutoff 0 (SNAPSHOT_CATEGORIES.getD 3 default) (some 3)
        = some (0 - timedelta_hours (3 : Int))) :=
  ⟨by decide, compute_cutoff_override_units 0 3 (by decide)⟩

/-- C4: with no lifetime override, `compute_cutoff` returns exactly `now`
minus the selected policy's default lifetime: 104 weeks for "years", 52 weeks
for "months", 4 weeks for "days" and 1 day for "hours". -/
theorem compute_cutoff_defaults (now : Int) :
    compute_cutoff now (SNAPSHOT_CATEGORIES.getD 0 default) none
        = some (now - timedelta_weeks 104)
    ∧ compute_cutoff now (SNAPSHOT_CATEGORIES.getD 1 default) none
        = some (now - timedelta_weeks 52)
    ∧ compute_cutoff now (SNAPSHOT_CATEGORIES.getD 2 default) none
        = some (now - timedelta_weeks 4)
    ∧ compute_cutoff now (SNAPSHOT_CATEGORIES.getD 3 default) none
        = some (now - timedelta_days 1) := by
  refine ⟨?_, ?_, ?_, ?_⟩ <;>
    simp [compute_cutoff, SNAPSHOT_CATEGORIES, truthy, timedelta_weeks, timedelta_days,
      WEEKS_IN_A_YEAR, WEEKS_IN_A_MONTH]

/-- C10: for every policy, a lifetime override of `0` (and likewise an absent
override, `none`) makes `compute_cutoff` return `now` minus the policy's
default lifetime: a zero override is silently treated the same as no
override. -/
theorem compute_cutoff_zero_override (now : Int) (policy : SnapshotPolicy) :
    compute_cutoff now policy (some 0) = some (now - policy.lifetime)
    ∧ compute_cutoff now policy none = some (now - policy.lifetime) := by
  constructor <;> simp [compute_cutoff, truthy]

/-- C5: for every granularity index `i`, the composite date format equals the
format tokens of table indices `0..i`, each prefixed with the format-escape
character `%`, joined by the literal separator `.`; concretely `"%Y"`,
`"%Y.%m"`, `"%Y.%m.%d"`, `"%Y.%m.%d.%H"` for the four indices, with the
index-0 format being the single escaped token. -/
theorem date_format_composition :
    (∀ i : Nat, date_format_for i = String.intercalate DATE_ELEMENT_SEPARATOR
        ((List.range (i + 1)).map
          (fun j => "%" ++ (SNAPSHOT_CATEGORIES.getD j default).date_format_qualifier)))
    ∧ date_format_for 0 = "%Y"
    ∧ date_format_for 1 = "%Y.%m"
    ∧ date_format_for 2 = "%Y.%m.%d"
    ∧ date_format_for 3 = "%Y.%m.%d.%H" :=
  ⟨fun _ => rfl, by decide, by decide, by decide, by decide⟩

/-- C6: for every target volume, the trace of `execute_snapshot_policy` (the
per-volume pass run by `main`) contains exactly one create event, the create
is the last event with every earlier event a destroy, and the created
snapshot's name is the volume name, the separator `@`, then the snapshot-name
format (prefix, `-`, composite date format, bare suffix token) rendered with
the run's `now` timestamp; this holds for every `list_snapshots` result,
including an empty one, so creation is unconditional. -/
theorem one_create_after_destroys
    (strptime : String → String → Option StructTime)
    (list_snapshots : String → Bool → List String)
    (strftime : String → StructTime → String)
    (prefixStr : String) (snapshot_period : Nat)
    (vdev : String) (now cutoff : StructTime) (recursive : Bool) :
    (execute_snapshot_policy strptime list_snapshots strftime vdev now cutoff
        (snapshot_name_format prefixStr snapshot_period) recursive).filter Event.isCreate
      = [Event.create (snapshot_name vdev
          (strftime (snapshot_name_format prefixStr snapshot_period) now))]
    ∧ (execute_snapshot_policy strptime list_snapshots strftime vdev now cutoff
        (snapshot_name_format prefixStr snapshot_period) recursive).getLast?
      = some (Event.create (snapshot_name vdev
          (strftime (snapshot_name_format prefixStr snapshot_period) now)))
    ∧ (∀ e ∈ (execute_snapshot_policy strptime list_snapshots strftime vdev now cutoff
        (snapshot_name_format prefixStr snapshot_period) recursive).dropLast,
        e.isDestroy = true)
    ∧ snapshot_name_format prefixStr snapshot_period
      = prefixStr ++ "-" ++ date_format_for snapshot_period
        ++ (SNAPSHOT_CATEGORIES.getD snapshot_period default).date_format_qualifier := by
  refine ⟨?_, ?_, ?_, rfl⟩
  · unfold execute_snapshot_policy
    rw [List.filter_append, filter_isCreate_map_destroy]
    simp [Event.isCreate]
  · unfold execute_snapshot_policy
    exact List.getLast?_concat _
  · unfold execute_snapshot_policy
    rw [List.dropLast_concat]
    intro e he
    obtain ⟨s, _, rfl⟩ := List.mem_map.mp he
    rfl

/-- C7: within each volume's pass, the destroyed names are sorted in
descending (reverse-lexicographic) order and are exactly the expired subset
of the listed snapshots; on the spec's example set
`{v@2020.01.01, v@2020.06.01, v@2019.12.31}` (all expired against a 2021
cutoff) the destroy calls occur in the order
`v@2020.06.01, v@2020.01.01, v@2019.12.31`. -/
theorem destroys_descending_order
    (strptime : String → String → Option StructTime)
    (list_snapshots : String → Bool → List String)
    (strftime : String → StructTime → String)
    (vdev : String) (now cutoff : StructTime)
    (date_format : String) (recursive : Bool) :
    List.Sorted (· ≥ ·) (destroyedNames (execute_snapshot_policy strptime list_snapshots
        strftime vdev now cutoff date_format recursive))
    ∧ List.Perm (destroyedNames (execute_snapshot_policy strptime list_snapshots strftime
        vdev now cutoff date_format recursive))
        ((list_snapshots vdev recursive).filter
          (fun snapshot => is_destroyable_snapshot strptime vdev cutoff date_format snapshot))
    ∧ destroyedNames (execute_snapshot_policy strptimeModel
        (fun _ _ => ["v@2020.01.01", "v@2020.06.01", "v@2019.12.31"])
        (fun f _ => f) "v" ⟨2020, 6, 2, 0, 0, 0, 1, 154, -1⟩ ⟨2021, 1, 1, 0, 0, 0, 4, 1, -1⟩
        "%Y.%m.%d" false)
      = ["v@2020.06.01", "v@2020.01.01", "v@2019.12.31"] := by
  refine ⟨?_, ?_, ?_⟩
  · rw [destroyedNames_execute]
    exact sortedReverse_sorted _
  · rw [destroyedNames_execute]
    exact sortedReverse_perm _
  · decide

/-- C8: when a run succeeds (`main_trace = ok tr`), the trace is the
concatenation, over the resolved target volumes arranged in descending
(reverse-lexicographic) order, of the per-volume traces of
`execute_snapshot_policy`, and each volume's trace is the destroys of a
descending-sorted permutation of exactly the expired matching snapshots of
that volume's listing (the subset selected by `is_destroyable_snapshot`
against the run's cutoff and format) followed by exactly one create whose
name is rendered from the single shared `now` timestamp of the run. -/
theorem run_volumes_descending_shared_now
    (strptime : String → String → Option StructTime)
    (list_snapshots : String → Bool → List String)
    (strftime : String → StructTime → String)
    (zfs_list_r : String → List String)
    (zfs_list_output : List String)
    (timetuple : Int → StructTime) (now : Int)
    (lifetime : Option Nat) (snapshot_period : Nat) (prefixStr : String)
    (recursive : Bool) (vdevs : List String)
    (resolved : List String) (tr : List Event)
    (hres : compute_vdevs zfs_list_r zfs_list_output vdevs recursive = .ok resolved)
    (htr : main_trace strptime list_snapshots strftime zfs_list_r zfs_list_output timetuple
        now lifetime snapshot_period prefixStr recursive vdevs = .ok tr) :
    ∃ c : Int,
      compute_cutoff now (SNAPSHOT_CATEGORIES.getD snapshot_period default) lifetime = some c
      ∧ ∃ order : List String,
        List.Perm order resolved
        ∧ List.Sorted (· ≥ ·) order
        ∧ tr = order.flatMap (fun vdev =>
            execute_snapshot_policy strptime list_snapshots strftime vdev
              (timetuple now) (timetuple c) (snapshot_name_format prefixStr snapshot_period)
              recursive)
        ∧ ∀ vdev ∈ order, ∃ destroyed : List String,
            List.Sorted (· ≥ ·) destroyed
            ∧ List.Perm destroyed ((list_snapshots vdev recursive).filter
                (fun snapshot => is_destroyable_snapshot strptime vdev (timetuple c)
                  (snapshot_name_format prefixStr snapshot_period) snapshot))
            ∧ execute_snapshot_policy strptime list_snapshots strftime vdev
                (timetuple now) (timetuple c) (snapshot_name_format prefixStr snapshot_period)
                recursive
              = destroyed.map Event.destroy
                ++ [Event.create (snapshot_name vdev
                    (strftime (snapshot_name_format prefixStr snapshot_period)
                      (timetuple now)))] := by
  cases hc : compute_cutoff now (SNAPSHOT_CATEGORIES.getD snapshot_period default) lifetime with
  | none =>
    simp only [main_trace, hc] at htr
    exact absurd htr (by simp)
  | some c =>
    simp only [main_trace, hc, hres, Except.ok.injEq] at htr
    refine ⟨c, rfl, sortedReverse resolved,
      sortedReverse_perm resolved, sortedReverse_sorted resolved, htr.symm, ?_⟩
    intro vdev _
    exact ⟨sortedReverse ((list_snapshots vdev recursive).filter
        (fun snapshot => is_destroyable_snapshot strptime vdev (timetuple c)
          (snapshot_name_format prefixStr snapshot_period) snapshot)),
      sortedReverse_sorted _, sortedReverse_perm _, rfl⟩

/-- C8 witness: an explicit two-volume run with no existing snapshots, with
the conclusion instantiated at the computed trace: the volumes are processed
as `b` then `a`, each with an empty (trivially expired-matching) destroy list
followed by its create. -/
theorem run_volumes_descending_shared_now_witness :
    compute_vdevs (fun _ => []) ["a"] ["a", "b"] false = .ok ["a", "b"]
    ∧ main_trace strptimeModel (fun _ _ => []) (fun f _ => f) (fun _ => []) ["a"]
        (fun _ => default) 0 none 3 "auto" false ["a", "b"]
      = .ok [Event.create "b@auto-%Y.%m.%d.%HH", Event.create "a@auto-%Y.%m.%d.%HH"]
    ∧ ∃ c : Int,
        compute_cutoff 0 (SNAPSHOT_CATEGORIES.getD 3 default) none = some c
        ∧ ∃ order : List String,
          List.Perm order ["a", "b"]
          ∧ List.Sorted (· ≥ ·) order
          ∧ [Event.create "b@auto-%Y.%m.%d.%HH", Event.create "a@auto-%Y.%m.%d.%HH"]
              = order.flatMap (fun vdev =>
                  execute_snapshot_policy strptimeModel (fun _ _ => []) (fun f _ => f) vdev
                    default default (snapshot_name_format "auto" 3) false)
          ∧ ∀ vdev ∈ order, ∃ destroyed : List String,
              List.Sorted (· ≥ ·) destroyed
              ∧ List.Perm destroyed (([] : List String).filter
                  (fun snapshot => is_destroyable_snapshot strptimeModel vdev default
                    (snapshot_name_format "auto" 3) snapshot))
              ∧ execute_snapshot_policy strptimeModel (fun _ _ => []) (fun f _ => f) vdev
                  default default (snapshot_name_format "auto" 3) false
                = destroyed.map Event.destroy
                  ++ [Event.create (snapshot_name vdev (snapshot_name_format "auto" 3))] :=
  ⟨rfl, rfl,
    run_volumes_descending_shared_now strptimeModel (fun _ _ => []) (fun f _ => f)
      (fun _ => []) ["a"] (fun _ => default) 0 none 3 "auto" false ["a", "b"] ["a", "b"]
      [Event.create "b@auto-%Y.%m.%d.%HH", Event.create "a@auto-%Y.%m.%d.%HH"]
      rfl rfl⟩

/-- Any valid policy-table index yields a defined cutoff for any override. -/
theorem compute_cutoff_isSome (now : Int) (lifetime : Option Nat) (i : Nat) (hi : i < 4) :
    (compute_cutoff now (SNAPSHOT_CATEGORIES.getD i default) lifetime).isSome = true := by
  rcases lifetime with _ | n
  · interval_cases i <;> simp [compute_cutoff, truthy]
  · by_cases hn : n = 0 <;>
      interval_cases i <;>
        simp [compute_cutoff, truthy, hn, SNAPSHOT_CATEGORIES, timedelta_of_unit]

/-- C9: with no explicit volumes and an empty all-volumes listing, the run
fails with the no-volumes-found error before any create or destroy is issued
(the error result carries no trace); and with a non-empty explicit volume
list and the recursive flag off, `compute_vdevs` returns the list unchanged,
whatever the all-volumes collaborator would report (it is not consulted). -/
theorem no_volumes_error_before_any_call
    (strptime : String → String → Option StructTime)
    (list_snapshots : String → Bool → List String)
    (strftime : String → StructTime → String)
    (zfs_list_r : String → List String)
    (timetuple : Int → StructTime) (now : Int)
    (lifetime : Option Nat) (snapshot_period : Nat) (prefixStr : String)
    (recursive : Bool)
    (hperiod : snapshot_period < 4) :
    main_trace strptime list_snapshots strftime zfs_list_r [] timetuple now lifetime
        snapshot_period prefixStr recursive []
      = .error .vdevNotFound
    ∧ ∀ (zfs_list_output vdevs2 : List String), vdevs2 ≠ [] →
        compute_vdevs zfs_list_r zfs_list_output vdevs2 false = .ok vdevs2 := by
  constructor
  · obtain ⟨c, hc⟩ := Option.isSome_iff_exists.mp
      (compute_cutoff_isSome now lifetime snapshot_period hperiod)
    simp only [main_trace, hc]
    simp [compute_vdevs, list_vdevs]
  · intro out vdevs2 hne
    simp [compute_vdevs, hne]

/-- C9 witness: a concrete empty-listing run fails with the no-volumes
error, and a concrete one-volume non-recursive list passes through. -/
theorem no_volumes_error_before_any_call_witness :
    (3 : Nat) < 4
    ∧ main_trace strptimeModel (fun _ _ => []) (fun f _ => f) (fun _ => []) []
        (fun _ => default) 0 none 3 "auto" false []
      = .error .vdevNotFound
    ∧ compute_vdevs (fun _ => []) [] ["tank"] false = .ok ["tank"] := by
  have h := no_volumes_error_before_any_call strptimeModel (fun _ _ => []) (fun f _ => f)
    (fun _ => []) (fun _ => default) 0 none 3 "auto" false (by decide)
  exact ⟨by decide, h.1, h.2 [] ["tank"] (by decide)⟩

end ZfsSnapshot
